import Mathlib

/-!
Shallow embedding of the data pipeline of `src/app.py` (a pandas/Streamlit
dashboard over public-transport quality indicators): the normalization
function `nettoyer_donnees`, the sidebar filters, and the three aggregated
views built in `main`.

A pandas cell is modelled by `Value` (a text cell, a numeric cell as an
exact rational, or a missing cell, i.e. `NaN`).  A `DataFrame` is a list of
column labels plus rows; each row is an association list from column label
to cell value, so that the label-renaming and column-presence logic of the
source can be expressed directly.  Machine floats are modelled by `ℚ`.
-/

namespace Dash

/-! Kernel-reducible rational arithmetic.  The core `Rat.add`, `Rat.mul` and
`Rat.inv` are `@[irreducible]`, which blocks `decide`-style evaluation of the
embedding on concrete tables.  The wrappers below compute the same rationals
through `mkRat` / `Rat.divInt` (which do reduce) and are proved equal to the
Mathlib operations, so algebraic reasoning can still use `+`, `*`, `/`. -/

/-- Addition on `ℚ` through `mkRat` (kernel-reducible). -/
def qAdd (a b : ℚ) : ℚ := mkRat (a.num * b.den + b.num * a.den) (a.den * b.den)

/-- Multiplication on `ℚ` through `mkRat` (kernel-reducible). -/
def qMul (a b : ℚ) : ℚ := mkRat (a.num * b.num) (a.den * b.den)

/-- Inverse on `ℚ` through `Rat.divInt` (kernel-reducible). -/
def qInv (a : ℚ) : ℚ := Rat.divInt a.den a.num

/-- Division on `ℚ` (kernel-reducible). -/
def qDiv (a b : ℚ) : ℚ := qMul a (qInv b)

/-- A natural number as a rational (kernel-reducible). -/
def qOfNat (n : ℕ) : ℚ := mkRat n 1

instance {ε α : Type} [DecidableEq ε] [DecidableEq α] : DecidableEq (Except ε α) :=
  fun a b =>
    match a, b with
    | .error e, .error f =>
        if h : e = f then .isTrue (by rw [h]) else .isFalse (fun hh => h (by cases hh; rfl))
    | .ok x, .ok y =>
        if h : x = y then .isTrue (by rw [h]) else .isFalse (fun hh => h (by cases hh; rfl))
    | .error _, .ok _ => .isFalse (fun hh => by cases hh)
    | .ok _, .error _ => .isFalse (fun hh => by cases hh)

/-- A pandas cell: text, numeric (float modelled as an exact rational),
or missing (`NaN`). -/
inductive Value where
  | str (s : String)
  | num (q : ℚ)
  | missing
deriving DecidableEq

/-- A data row: an association list from column label to cell value. -/
abbrev Row := List (String × Value)

/-- A pandas `DataFrame`: column labels plus rows. -/
structure DataFrame where
  cols : List String
  rows : List Row
deriving DecidableEq

/-- Reading the cell of column `c` in a row; a label absent from the row
reads as a missing value. -/
def getCell : Row → String → Value
  | [], _ => .missing
  | (k, v) :: r, c => if k = c then v else getCell r c

/-- Writing the cell of column `c` in a row (in place if the label exists,
appended otherwise). -/
def setCell : Row → String → Value → Row
  | [], c, v => [(c, v)]
  | (k, w) :: r, c, v => if k = c then (c, v) :: r else (k, w) :: setCell r c v

/-- Column extraction: `df[c]` as a list of cells, one per row. -/
def getColumn (df : DataFrame) (c : String) : List Value :=
  df.rows.map (fun r => getCell r c)

/-- Column assignment: `df[c] = vals` (vals aligned with the rows). -/
def setColumn (df : DataFrame) (c : String) (vals : List Value) : DataFrame :=
  { cols := if c ∈ df.cols then df.cols else df.cols ++ [c]
    rows := List.zipWith (fun r v => setCell r c v) df.rows vals }

/-- Whether a cell is a text cell (the cell-level reading of pandas
`dtype == object`). -/
def isStrB : Value → Bool
  | .str _ => true
  | _ => false

/-- Whether a cell is a numeric cell. -/
def isNumB : Value → Bool
  | .num _ => true
  | _ => false

/-- Whether a cell is an integer-valued numeric cell (the cell-level reading
of pandas `int64` columns). -/
def isIntVal : Value → Bool
  | .num q => q.den = 1
  | _ => false

/-- `s.strip()` character test used by `str.strip()`. -/
def isSpaceChar (c : Char) : Bool :=
  c = ' ' || c = '\t' || c = '\n' || c = '\r'

/-- `str.strip()`: drop leading and trailing whitespace. -/
def stripStr (s : String) : String :=
  String.mk (((s.toList.dropWhile isSpaceChar).reverse.dropWhile isSpaceChar).reverse)

/-- `str.lower()` (ASCII fragment). -/
def lowerStr (s : String) : String :=
  String.mk (s.toList.map Char.toLower)

/-- Header normalization of step 1: `df.columns.str.strip().str.lower()`. -/
def normHeader (s : String) : String :=
  lowerStr (stripStr s)

/-- The column-rename lookup of step 2 (`rename_map`); entries whose key
equals their value are no-ops and are omitted. -/
def renameCol (c : String) : String :=
  if c = "resultat_indicateurs_en" then "valeur_reelle"
  else if c = "objectif_reference_contrat" then "valeur_objectif"
  else c

/-- `s.replace(',', '.')` for the single-character pattern used in step 3. -/
def replaceComma (s : String) : String :=
  String.mk (s.toList.map (fun c => if c = ',' then '.' else c))

/-- Digit accumulator for the numeric parser. -/
def digitsToNat (l : List Char) : Nat :=
  l.foldl (fun n c => 10 * n + (c.toNat - 48)) 0

/-- Decimal-literal fragment of the string-to-float parsing performed by
`pd.to_numeric(errors='coerce')`: optional sign, integer digits, optional
fractional part.  Strings outside this fragment (or non-numeric text such
as `"abc"` or `"nan"`) yield `none`, which the coercion turns into a
missing cell. -/
def parseFloat (s : String) : Option ℚ :=
  let signed : ℚ × List Char :=
    match s.toList with
    | '-' :: r => (-1, r)
    | '+' :: r => (1, r)
    | cs => (1, cs)
  let ip := signed.2.takeWhile Char.isDigit
  let rest := signed.2.dropWhile Char.isDigit
  match rest with
  | [] => if ip.isEmpty then none else some (qMul signed.1 (qOfNat (digitsToNat ip)))
  | '.' :: fp =>
      if fp.all Char.isDigit && !(ip.isEmpty && fp.isEmpty) then
        some (qMul signed.1
          (qAdd (qOfNat (digitsToNat ip)) (qDiv (qOfNat (digitsToNat fp)) (qOfNat (10 ^ fp.length)))))
      else none
  | _ => none

/-- `pd.to_numeric(errors='coerce')` on one cell: numbers pass through,
text parses or becomes missing, missing stays missing. -/
def toNumericCell : Value → Value
  | .str s =>
      match parseFloat s with
      | some q => .num q
      | none => .missing
  | .num q => .num q
  | .missing => .missing

/-- Decimal rendering `n / 10^k` with `k` fractional digits,
e.g. `decStr 985 1 = "98.5"`. -/
def decStr (n : ℤ) (k : Nat) : String :=
  let s := toString n.natAbs
  let s := if s.length ≤ k then String.mk (List.replicate (k + 1 - s.length) '0') ++ s else s
  let a := s.toList
  (if n < 0 then "-" else "") ++
    String.mk (a.take (a.length - k)) ++ "." ++ String.mk (a.drop (a.length - k))

/-- `str()` of a float64 value: integers render with a trailing `.0`
(e.g. `str(2023.0) = "2023.0"`), other decimals with their fractional
digits.  Rationals with no finite decimal expansion have no float64
counterpart; they get a fallback rendering. -/
def ratStrF (q : ℚ) : String :=
  match (List.range 40).find? (fun k => (qMul q (qOfNat (10 ^ k))).den = 1) with
  | some k =>
      if k = 0 then toString q.num ++ ".0"
      else decStr (qMul q (qOfNat (10 ^ k))).num k
  | none => toString q.num ++ "/" ++ toString q.den

/-- Python `str()` of one element of an object-dtype column: strings are
unchanged, integers render without a decimal point, floats as `ratStrF`,
`NaN` renders as `"nan"`. -/
def valueToStrObj : Value → String
  | .str s => s
  | .num q => if q.den = 1 then toString q.num else ratStrF q
  | .missing => "nan"

/-- `series.astype(str)` on a whole column, sensitive to the column dtype as
in pandas: a column holding any text cell is object dtype (elementwise
Python `str()`); a column of integer numerics with no missing cell is
`int64` (no decimal point); any other numeric column is `float64`
(integers render as `"2023.0"`, `NaN` as `"nan"`). -/
def astypeStrCol (cells : List Value) : List String :=
  if cells.any isStrB then cells.map valueToStrObj
  else if cells.all isIntVal then
    cells.map (fun v => match v with | .num q => toString q.num | _ => "nan")
  else
    cells.map (fun v => match v with | .num q => ratStrF q | .str s => s | .missing => "nan")

/-- Step 3 of `nettoyer_donnees` on one numeric column:
`if df[col].dtype == object: df[col] = df[col].astype(str).str.replace(',', '.', regex=False)`
then `df[col] = pd.to_numeric(df[col], errors='coerce')`. -/
def coerceCol (cells : List Value) : List Value :=
  if cells.any isStrB then
    cells.map (fun v => toNumericCell (.str (replaceComma (valueToStrObj v))))
  else
    cells.map toNumericCell

/-- Step 1: `df.columns = df.columns.str.strip().str.lower()` (labels are
renamed, cells untouched; in the association-list representation the row
keys carry the labels, so they are renamed alongside). -/
def stepLower (df : DataFrame) : DataFrame :=
  { cols := df.cols.map normHeader
    rows := df.rows.map (fun r => r.map (fun p => (normHeader p.1, p.2))) }

/-- Step 2: `df.rename(columns={k: v for k, v in rename_map.items() if k in df.columns}, inplace=True)`
(renaming a label absent from the table is a no-op, so the guard does not
change the result). -/
def stepRename (df : DataFrame) : DataFrame :=
  { cols := df.cols.map renameCol
    rows := df.rows.map (fun r => r.map (fun p => (renameCol p.1, p.2))) }

/-- Step 3: numeric coercion of `valeur_reelle` then `valeur_objectif`,
each only when present. -/
def stepCoerce (df : DataFrame) : DataFrame :=
  let df1 :=
    if "valeur_reelle" ∈ df.cols then
      setColumn df "valeur_reelle" (coerceCol (getColumn df "valeur_reelle"))
    else df
  if "valeur_objectif" ∈ df1.cols then
    setColumn df1 "valeur_objectif" (coerceCol (getColumn df1 "valeur_objectif"))
  else df1

/-- The quarter-index lookup of step 4 composed with `fillna(0)`:
`mapping_trimestre = {'T1': 1, 'T2': 2, 'T3': 3, 'T4': 4}`, any other or
missing value maps to `0`. -/
def quarterIdx : Value → ℚ
  | .str "T1" => 1
  | .str "T2" => 2
  | .str "T3" => 3
  | .str "T4" => 4
  | _ => 0

/-- The derived sort key of step 4 on one row's year and quarter:
`sort_key = annee * 10 + trim_num`, with
`trim_num = trimestre.map(mapping_trimestre).fillna(0)` fused into
`quarterIdx`. -/
def sortKeyOf (a : ℚ) (t : Value) : ℚ :=
  qAdd (qMul a 10) (quarterIdx t)

/-- The `sort_key` cell of one row: `df['annee'] * 10 + trim_num` is `NaN`
whenever `annee` is `NaN` (`NaN` propagates through arithmetic). -/
def sortKeyCell (a t : Value) : Value :=
  match a with
  | .num x => .num (sortKeyOf x t)
  | _ => .missing

/-- Step 4: when both `annee` and `trimestre` are present, derive
`periode_label = df['annee'].astype(str) + " - " + df['trimestre'].astype(str)`
and `sort_key = df['annee'] * 10 + trim_num`.  When the `annee` column
holds text cells, `df['annee'] * 10` is elementwise string repetition and
adding the float series `trim_num` raises a `TypeError`, modelled as
`Except.error` (the exception escapes `nettoyer_donnees`). -/
def stepDerive (df : DataFrame) : Except Unit DataFrame :=
  if "annee" ∈ df.cols ∧ "trimestre" ∈ df.cols then
    let periode := List.zipWith (fun a t => Value.str (a ++ " - " ++ t))
      (astypeStrCol (getColumn df "annee")) (astypeStrCol (getColumn df "trimestre"))
    let df1 := setColumn df "periode_label" periode
    if (getColumn df "annee").any isStrB then .error ()
    else
      .ok (setColumn df1 "sort_key"
        (List.zipWith sortKeyCell (getColumn df1 "annee") (getColumn df1 "trimestre")))
  else .ok df

/-- The table state at the moment the `TypeError` of step 4 is raised: the
`periode_label` assignment has already been applied in place. -/
def stepDeriveAborted (df : DataFrame) : DataFrame :=
  if "annee" ∈ df.cols ∧ "trimestre" ∈ df.cols then
    setColumn df "periode_label"
      (List.zipWith (fun a t => Value.str (a ++ " - " ++ t))
        (astypeStrCol (getColumn df "annee")) (astypeStrCol (getColumn df "trimestre")))
  else df

/-- Step 5: `df.dropna(subset=['valeur_reelle'], inplace=True)`, only when
the column is present. -/
def stepDrop (df : DataFrame) : DataFrame :=
  if "valeur_reelle" ∈ df.cols then
    { df with rows := df.rows.filter (fun r => decide (getCell r "valeur_reelle" ≠ Value.missing)) }
  else df

/-- `nettoyer_donnees(df)`: steps 1–5 in order; `Except.error` models the
`TypeError` raised in step 4 on a text-typed year column. -/
def nettoyer_donnees (df : DataFrame) : Except Unit DataFrame :=
  match stepDerive (stepCoerce (stepRename (stepLower df))) with
  | .ok d => .ok (stepDrop d)
  | .error e => .error e

/-- A call `nettoyer_donnees(x)` observed from the caller: every update in
the function body (`df.columns = …`, `rename(inplace=True)`,
`df[col] = …`, `dropna(inplace=True)`) mutates the argument object itself,
so after a normal return the caller's `x` holds the returned normalized
table; if the step-4 `TypeError` escapes, `x` is left in the
partially-updated state.  First component: the argument's value after the
call; second: the call's result. -/
def nettoyerCall (df : DataFrame) : DataFrame × Except Unit DataFrame :=
  match nettoyer_donnees df with
  | .ok r => (r, .ok r)
  | .error e => (stepDeriveAborted (stepCoerce (stepRename (stepLower df))), .error e)

/-! The sidebar filters of `main` (section C): a year multiselect and two
single-select boxes with sentinel values `'Tous'` / `'Toutes'`. -/

/-- The user-selected filter criteria: the selected years, the selected
mode (`"Tous"` meaning no constraint) and the selected thématique
(`"Toutes"` meaning no constraint). -/
structure Criteria where
  annees : List Value
  mode : String
  theme : String
deriving DecidableEq

/-- Filter 1: `if annees_sel: df = df[df['annee'].isin(annees_sel)]`, guarded
by the presence of the `annee` column (an empty selection is falsy in
Python, so it imposes no constraint).  pandas `isin` matches `NaN` against a
selected `NaN`, which plain `Value` equality also does. -/
def filterAnnee (sel : List Value) (df : DataFrame) : DataFrame :=
  if "annee" ∈ df.cols ∧ sel ≠ [] then
    { df with rows := df.rows.filter (fun r => decide (getCell r "annee" ∈ sel)) }
  else df

/-- Filter 2: `if mode_sel != 'Tous': df = df[df['mode'] == mode_sel]`,
guarded by the presence of the `mode` column.  The pandas comparison of a
cell with the selected string is true exactly on equal text cells (`NaN`
and numeric cells compare unequal to a string). -/
def filterMode (sel : String) (df : DataFrame) : DataFrame :=
  if "mode" ∈ df.cols ∧ sel ≠ "Tous" then
    { df with rows := df.rows.filter (fun r => decide (getCell r "mode" = Value.str sel)) }
  else df

/-- Filter 3: `if theme_sel != 'Toutes': df = df[df['thematique'] == theme_sel]`,
guarded by the presence of the `thematique` column. -/
def filterTheme (sel : String) (df : DataFrame) : DataFrame :=
  if "thematique" ∈ df.cols ∧ sel ≠ "Toutes" then
    { df with rows := df.rows.filter (fun r => decide (getCell r "thematique" = Value.str sel)) }
  else df

/-- The three sidebar filters applied in program order. -/
def applyFilters (c : Criteria) (df : DataFrame) : DataFrame :=
  filterTheme c.theme (filterMode c.mode (filterAnnee c.annees df))

/-! The aggregation views of `main` (section E). -/

/-- First-appearance deduplication (the distinct keys of a `groupby`;
pandas additionally sorts the group keys, but every view below re-sorts by
the aggregated mean, so key order only affects the order of ties, which no
downstream consumer fixes either, `sort_values` being unstable). -/
def dedupFirst {α : Type} [DecidableEq α] (l : List α) : List α :=
  l.foldl (fun acc v => if v ∈ acc then acc else acc ++ [v]) []

/-- Sum of a list of rationals (kernel-reducible). -/
def qSum : List ℚ → ℚ
  | [] => 0
  | q :: l => qAdd q (qSum l)

/-- The numeric content of a cell, if any. -/
def numOf : Value → Option ℚ
  | .num q => some q
  | _ => none

/-- The mean a pandas `GroupBy.mean` computes over one group's cells: the
unweighted arithmetic mean of the numeric (non-missing) cells, `NaN`
(`none`) when no cell is numeric. -/
def meanOpt (vals : List Value) : Option ℚ :=
  if (vals.filterMap numOf).isEmpty then none
  else some (qDiv (qSum (vals.filterMap numOf)) (qOfNat (vals.filterMap numOf).length))

/-- The distinct group keys of `df.groupby(key)`: rows whose key is `NaN`
are excluded (`groupby` default `dropna=True`). -/
def distinctKeys (df : DataFrame) (key : String) : List Value :=
  dedupFirst ((df.rows.map (fun r => getCell r key)).filter (fun v => decide (v ≠ Value.missing)))

/-- The rows of one group of `df.groupby(key)`. -/
def groupRows (df : DataFrame) (key : String) (k : Value) : List Row :=
  df.rows.filter (fun r => decide (getCell r key = k))

/-- `df.groupby(key)[val].mean()` for one group key. -/
def groupMeanOpt (df : DataFrame) (key val : String) (k : Value) : Option ℚ :=
  meanOpt ((groupRows df key k).map (fun r => getCell r val))

/-- `df.groupby(key)[val].mean().reset_index()`: one `(key, mean)` row per
distinct non-missing key. -/
def groupbyMean (df : DataFrame) (key val : String) : List (Value × Option ℚ) :=
  (distinctKeys df key).map (fun k => (k, groupMeanOpt df key val k))

/-- Insertion of one element into a list sorted by the boolean
comparison `le`. -/
def insertLe {α : Type} (le : α → α → Bool) (a : α) : List α → List α
  | [] => [a]
  | b :: l => if le a b then a :: b :: l else b :: insertLe le a l

/-- Insertion sort by the boolean comparison `le` (`sort_values`; ties may
come out in a different order than pandas' unstable quicksort, which no
claim fixes). -/
def sortLe {α : Type} (le : α → α → Bool) : List α → List α
  | [] => []
  | a :: l => insertLe le a (sortLe le l)

/-- `sort_values` comparison on aggregated means: `NaN` sorts last
(`na_position='last'`). -/
def leMean : Option ℚ → Option ℚ → Bool
  | some a, some b => decide (a ≤ b)
  | some _, none => true
  | none, some _ => false
  | none, none => true

/-- The `sort_values` order on `(key, mean)` rows: ascending in the mean,
`NaN` last. -/
def leMeanRel (p q : Value × Option ℚ) : Prop := leMean p.2 q.2 = true

instance : DecidableRel leMeanRel :=
  fun p q => inferInstanceAs (Decidable (leMean p.2 q.2 = true))

instance : IsTotal (Value × Option ℚ) leMeanRel :=
  ⟨fun p q => by
    unfold leMeanRel
    cases p.2 with
    | none => cases q.2 <;> simp [leMean]
    | some x =>
        cases q.2 with
        | none => simp [leMean]
        | some y => simpa [leMean] using le_total x y⟩

instance : IsTrans (Value × Option ℚ) leMeanRel :=
  ⟨fun p q r h1 h2 => by
    unfold leMeanRel at h1 h2 ⊢
    cases hp : p.2 with
    | none => cases hq : q.2 <;> cases hr : r.2 <;> simp_all [leMean]
    | some x =>
        cases hq : q.2 with
        | none => cases hr : r.2 <;> simp_all [leMean]
        | some y =>
            cases hr : r.2 with
            | none => simp [leMean]
            | some z =>
                rw [hq, hr] at h2
                rw [hp, hq] at h1
                simp only [leMean, decide_eq_true_eq] at h1 h2 ⊢
                exact le_trans h1 h2⟩

/-- `sort_values` comparison on `sort_key` cells: numeric ascending, `NaN`
last. -/
def leVal : Value → Value → Bool
  | .num a, .num b => decide (a ≤ b)
  | .num _, _ => true
  | _, .num _ => false
  | _, _ => true

/-- Graphique 2 (ranked entity performance): requires the `ligne` and
`valeur_reelle` columns; groups by `ligne`, means `valeur_reelle`, sorts
ascending and keeps the first 15 (`head(15)`); `none` when a required
column is absent (the view is skipped). -/
def viewRanked (df : DataFrame) : Option (List (Value × Option ℚ)) :=
  if "ligne" ∈ df.cols ∧ "valeur_reelle" ∈ df.cols then
    some ((List.insertionSort leMeanRel (groupbyMean df "ligne" "valeur_reelle")).take 15)
  else none

/-- Graphique 3 (category breakdown): requires the `thematique` and
`valeur_reelle` columns; groups by `thematique`, means `valeur_reelle`,
sorts ascending; `none` when a required column is absent. -/
def viewTheme (df : DataFrame) : Option (List (Value × Option ℚ)) :=
  if "thematique" ∈ df.cols ∧ "valeur_reelle" ∈ df.cols then
    some (List.insertionSort leMeanRel (groupbyMean df "thematique" "valeur_reelle"))
  else none

/-- `cols_to_agg` of Graphique 1: `valeur_reelle`, plus `valeur_objectif`
when present. -/
def colsToAgg (df : DataFrame) : List String :=
  if "valeur_objectif" ∈ df.cols then ["valeur_reelle", "valeur_objectif"]
  else ["valeur_reelle"]

/-- `df_time` of Graphique 1: group by `(sort_key, periode_label)` (rows
with a missing key component are dropped by `groupby`), mean the aggregated
columns, sort by `sort_key`. -/
def dfTime (df : DataFrame) : List ((Value × Value) × List (String × Option ℚ)) :=
  let keys := dedupFirst ((df.rows.map (fun r => (getCell r "sort_key", getCell r "periode_label"))).filter
    (fun p => decide (p.1 ≠ Value.missing) && decide (p.2 ≠ Value.missing)))
  sortLe (fun a b => leVal a.1.1 b.1.1)
    (keys.map (fun k =>
      let rs := df.rows.filter (fun r =>
        decide ((getCell r "sort_key", getCell r "periode_label") = k))
      (k, (colsToAgg df).map (fun c => (c, meanOpt (rs.map (fun r => getCell r c)))))))

/-- The legend mapping of Graphique 1: `labels_map` applied by
`Series.map` (unmapped names become `NaN`, i.e. `none`). -/
def labelOf (c : String) : Option String :=
  if c = "valeur_reelle" then some "Réel"
  else if c = "valeur_objectif" then some "Objectif"
  else none

/-- Graphique 1 (temporal trend): guarded only on the derived
`periode_label` and `sort_key` columns.  When the guard holds, the column
selection `df.groupby(['sort_key', 'periode_label'])[cols_to_agg]` raises a
`KeyError` if a requested column is absent — `cols_to_agg` always contains
`valeur_reelle`, so this happens exactly when `valeur_reelle` is missing
from the table; the exception is uncaught and halts the script run,
modelled as `Except.error`.  Otherwise the view aggregates `df_time` and
melts it to long form (one row `(periode_label, sort_key, series label,
mean)` per aggregated column and period, stacked column by column as
`melt` does).  `Except.ok none` when the guard fails (the view is
skipped). -/
def viewTemporal (df : DataFrame) :
    Except Unit (Option (List (Value × Value × Option String × Option ℚ))) :=
  if "periode_label" ∈ df.cols ∧ "sort_key" ∈ df.cols then
    if (colsToAgg df).all (fun c => decide (c ∈ df.cols)) then
      .ok (some (((colsToAgg df).map (fun c =>
        (dfTime df).map (fun g =>
          (g.1.2, g.1.1, labelOf c,
            ((g.2.filter (fun p => decide (p.1 = c))).map Prod.snd).headI)))).flatten))
    else .error ()
  else .ok none

/-- The dashboard of section E: the three views plus the informational
notices (`st.info`) issued for skipped views.  Graphique 1 and Graphique 2
have an `else: st.info(...)` branch; Graphique 3 has none and is skipped
silently. -/
structure Dashboard where
  temporal : Option (List (Value × Value × Option String × Option ℚ))
  ranked : Option (List (Value × Option ℚ))
  theme : Option (List (Value × Option ℚ))
  notices : List String
deriving DecidableEq

/-- Section E of `main` on a (filtered) normalized table, executed top to
bottom: Graphique 1 runs first, and when its column selection raises the
uncaught `KeyError` the script run aborts there — Graphique 2 (and its
`st.info` notice), Graphique 3 and everything after are never reached.
Only on a normal pass through Graphique 1 are the remaining views computed
and the notices issued. -/
def renderDashboard (df : DataFrame) : Except Unit Dashboard :=
  match viewTemporal df with
  | .error e => .error e
  | .ok t =>
      .ok { temporal := t
            ranked := viewRanked df
            theme := viewTheme df
            notices :=
              (if t.isNone then ["Données temporelles insuffisantes."] else []) ++
              (if (viewRanked df).isNone then ["Information sur les lignes manquante."] else []) }

/-- Deleting the rows whose grouping key is missing (used to state that
such rows contribute to no group of a view). -/
def dropMissingKey (df : DataFrame) (key : String) : DataFrame :=
  { df with rows := df.rows.filter (fun r => decide (getCell r key ≠ Value.missing)) }

/-! Concrete tables used by counterexamples and witnesses. -/

/-- Concrete table for C1: no measurement column at all, one row. -/
def dfC1 : DataFrame := ⟨["ligne"], [[("ligne", Value.str "A")]]⟩

/-- Concrete table for the C1 witness: a renamed measurement column with
one parseable and one unparseable cell. -/
def dfW1 : DataFrame :=
  ⟨["resultat_indicateurs_en"],
   [[("resultat_indicateurs_en", Value.str "98,5")],
    [("resultat_indicateurs_en", Value.str "abc")]]⟩

/-- The normalized output of `dfW1`: the unparseable row was dropped. -/
def dfW1out : DataFrame :=
  ⟨["valeur_reelle"], [[("valeur_reelle", Value.num (mkRat 197 2))]]⟩

/-- Concrete table for C3: one droppable row, so normalization changes the
table. -/
def dfC3 : DataFrame := ⟨["valeur_reelle"], [[("valeur_reelle", Value.missing)]]⟩

/-- Concrete table for C6: the temporal and ranked views have their
required columns, the `thematique` column is absent. -/
def dfC6 : DataFrame := ⟨["periode_label", "sort_key", "ligne", "valeur_reelle"], []⟩

/-- Concrete raw table for the C6 crash path: year, quarter and entity but
no measurement column, so normalization derives `periode_label` and
`sort_key` while `valeur_reelle` stays absent (no coercion, no drop). -/
def dfC6b : DataFrame :=
  ⟨["annee", "trimestre", "ligne"],
   [[("annee", Value.num 2023), ("trimestre", Value.str "T1"), ("ligne", Value.str "A")]]⟩

/-- Concrete table for the C6 witness: no `periode_label` column. -/
def dfW6 : DataFrame := ⟨["ligne", "valeur_reelle"], []⟩

/-- Concrete table for C7: a valid year with quarter `T1`, and a missing
year with quarter `T2`; both rows carry a measurement. -/
def dfC7 : DataFrame :=
  ⟨["annee", "trimestre", "resultat_indicateurs_en"],
   [[("annee", Value.num 2023), ("trimestre", Value.str "T1"),
     ("resultat_indicateurs_en", Value.str "95,0")],
    [("annee", Value.missing), ("trimestre", Value.str "T2"),
     ("resultat_indicateurs_en", Value.str "90,0")]]⟩

/-- Concrete table for the C7 witness. -/
def dfW7 : DataFrame :=
  ⟨["annee", "trimestre"],
   [[("annee", Value.num 2024), ("trimestre", Value.str "T3")],
    [("annee", Value.missing), ("trimestre", Value.str "T1")]]⟩

/-- Concrete table for the C4 witness. -/
def dfW4 : DataFrame :=
  ⟨["valeur_reelle", "valeur_objectif"],
   [[("valeur_reelle", Value.str "98,5"), ("valeur_objectif", Value.str "abc")]]⟩

/-- Concrete table for the C9 witness (and filter sanity checks). -/
def dfW9 : DataFrame :=
  ⟨["mode", "thematique", "valeur_reelle"],
   [[("mode", Value.str "Métro"), ("thematique", Value.str "Régularité"), ("valeur_reelle", Value.num 95)],
    [("mode", Value.str "Bus"), ("thematique", Value.str "Propreté"), ("valeur_reelle", Value.num 80)],
    [("mode", Value.missing), ("thematique", Value.missing), ("valeur_reelle", Value.num 70)]]⟩

/-- Concrete table for the C5 witness: two entities, means 80 and 95. -/
def dfW5 : DataFrame :=
  ⟨["ligne", "valeur_reelle"],
   [[("ligne", Value.str "B"), ("valeur_reelle", Value.num 80)],
    [("ligne", Value.str "A"), ("valeur_reelle", Value.num 95)]]⟩

/-- Concrete table for the C10 witness: a row with a missing `ligne` and
`thematique` key next to a keyed row. -/
def dfW10 : DataFrame :=
  ⟨["ligne", "thematique", "valeur_reelle"],
   [[("ligne", Value.str "A"), ("thematique", Value.str "Régularité"),
     ("valeur_reelle", Value.num 95)],
    [("ligne", Value.missing), ("thematique", Value.missing),
     ("valeur_reelle", Value.num 50)]]⟩

/-! Bridge lemmas from the kernel-reducible rational operations to the
Mathlib operations. -/

theorem qAdd_eq (a b : ℚ) : qAdd a b = a + b := (Rat.add_def' a b).symm

theorem qMul_eq (a b : ℚ) : qMul a b = a * b := by
  rw [Rat.mul_def, Rat.normalize_eq_mkRat]; rfl

theorem qInv_eq (a : ℚ) : qInv a = a⁻¹ := (Rat.inv_def a).symm

theorem qDiv_eq (a b : ℚ) : qDiv a b = a / b := by
  rw [qDiv, qMul_eq, qInv_eq, div_eq_mul_inv]

theorem qOfNat_eq (n : ℕ) : qOfNat n = (n : ℚ) := by
  rw [qOfNat, Rat.mkRat_one]; rfl

theorem qSum_eq (l : List ℚ) : qSum l = l.sum := by
  induction l with
  | nil => rfl
  | cons q l ih => rw [qSum, qAdd_eq, ih, List.sum_cons]

theorem sortKeyOf_eq (a : ℚ) (t : Value) : sortKeyOf a t = a * 10 + quarterIdx t := by
  rw [sortKeyOf, qAdd_eq, qMul_eq]

/-! Cell and column access lemmas. -/

theorem getCell_setCell_self (r : Row) (c : String) (v : Value) :
    getCell (setCell r c v) c = v := by
  induction r with
  | nil => simp [setCell, getCell]
  | cons p r ih =>
      obtain ⟨k, w⟩ := p
      by_cases h : k = c
      · simp [setCell, getCell, h]
      · simp [setCell, getCell, h, ih]

theorem getCell_setCell_ne (r : Row) (c c' : String) (v : Value) (h : c ≠ c') :
    getCell (setCell r c v) c' = getCell r c' := by
  induction r with
  | nil => simp [setCell, getCell, h]
  | cons p r ih =>
      obtain ⟨k, w⟩ := p
      by_cases hk : k = c
      · subst hk; simp [setCell, getCell, h]
      · by_cases hk' : k = c' <;> simp [setCell, getCell, hk, hk', ih, Ne.symm h]

theorem map_getCell_zipWith_setCell (rows : List Row) (vals : List Value) (c : String)
    (h : vals.length = rows.length) :
    (List.zipWith (fun r v => setCell r c v) rows vals).map (fun r => getCell r c) = vals := by
  induction rows generalizing vals with
  | nil => cases vals with
    | nil => rfl
    | cons v vs => simp at h
  | cons r rows ih =>
      cases vals with
      | nil => simp at h
      | cons v vs =>
          simp only [List.zipWith, List.map]
          rw [getCell_setCell_self, ih vs (by simpa using h)]

theorem map_getCell_zipWith_setCell_ne (rows : List Row) (vals : List Value) (c c' : String)
    (h : vals.length = rows.length) (hne : c ≠ c') :
    (List.zipWith (fun r v => setCell r c v) rows vals).map (fun r => getCell r c') =
      rows.map (fun r => getCell r c') := by
  induction rows generalizing vals with
  | nil => cases vals <;> rfl
  | cons r rows ih =>
      cases vals with
      | nil => simp at h
      | cons v vs =>
          simp only [List.zipWith, List.map]
          rw [getCell_setCell_ne _ _ _ _ hne, ih vs (by simpa using h)]

theorem length_getColumn (df : DataFrame) (c : String) :
    (getColumn df c).length = df.rows.length := by
  simp [getColumn]

theorem getColumn_setColumn_self (df : DataFrame) (c : String) (vals : List Value)
    (h : vals.length = df.rows.length) :
    getColumn (setColumn df c vals) c = vals := by
  simp only [getColumn, setColumn]
  exact map_getCell_zipWith_setCell df.rows vals c h

theorem getColumn_setColumn_ne (df : DataFrame) (c c' : String) (vals : List Value)
    (h : vals.length = df.rows.length) (hne : c ≠ c') :
    getColumn (setColumn df c vals) c' = getColumn df c' := by
  simp only [getColumn, setColumn]
  exact map_getCell_zipWith_setCell_ne df.rows vals c c' h hne

theorem mem_cols_setColumn (df : DataFrame) (c c' : String) (vals : List Value) :
    c' ∈ (setColumn df c vals).cols ↔ c' ∈ df.cols ∨ c' = c := by
  simp only [setColumn]
  by_cases h : c ∈ df.cols
  · simp only [if_pos h]
    constructor
    · exact fun hh => Or.inl hh
    · rintro (hh | rfl) <;> [exact hh; exact h]
  · simp [if_neg h, List.mem_append]

theorem length_rows_setColumn (df : DataFrame) (c : String) (vals : List Value)
    (h : vals.length = df.rows.length) :
    (setColumn df c vals).rows.length = df.rows.length := by
  simp [setColumn, List.length_zipWith, h]

theorem length_coerceCol (cells : List Value) : (coerceCol cells).length = cells.length := by
  unfold coerceCol
  split <;> simp

theorem length_astypeStrCol (cells : List Value) : (astypeStrCol cells).length = cells.length := by
  unfold astypeStrCol
  split
  · simp
  · split <;> simp

theorem stepDrop_mem_nonmissing (d : DataFrame) (hc : "valeur_reelle" ∈ (stepDrop d).cols) :
    ∀ r ∈ (stepDrop d).rows, getCell r "valeur_reelle" ≠ Value.missing := by
  unfold stepDrop at hc ⊢
  by_cases h : "valeur_reelle" ∈ d.cols
  · simp only [if_pos h]
    intro r hr
    simpa using (List.mem_filter.mp hr).2
  · simp only [if_neg h] at hc
    exact absurd hc h

/-! Claim theorems. -/

/-- C1, counterexample to the claim as stated: on an input table with no
`valeur_reelle` column (before or after renaming), `nettoyer_donnees` skips
the `dropna` step, returns the table unchanged, and its row has no
(equivalently, a missing) `valeur_reelle` value — so not every row of the
normalized output has a non-missing `valeur_reelle`. -/
theorem C1_cex :
    nettoyer_donnees dfC1 = Except.ok dfC1 ∧
    ¬ (∀ r ∈ dfC1.rows, getCell r "valeur_reelle" ≠ Value.missing) := by
  decide

/-- C1, amended: for every input table whose normalized output still has a
`valeur_reelle` column, every row of the table returned by
`nettoyer_donnees` has a non-missing `valeur_reelle`; all rows whose
`valeur_reelle` is missing after coercion are dropped. -/
theorem C1_thm (df out : DataFrame) (h : nettoyer_donnees df = Except.ok out)
    (hc : "valeur_reelle" ∈ out.cols) :
    ∀ r ∈ out.rows, getCell r "valeur_reelle" ≠ Value.missing := by
  unfold nettoyer_donnees at h
  cases hd : stepDerive (stepCoerce (stepRename (stepLower df))) with
  | error e => rw [hd] at h; cases h
  | ok d =>
      rw [hd] at h
      injection h with h
      subst h
      exact stepDrop_mem_nonmissing d hc

/-- C1 witness: `C1_thm` applied at the concrete table `dfW1`. -/
theorem C1_wit :
    nettoyer_donnees dfW1 = Except.ok dfW1out ∧
    "valeur_reelle" ∈ dfW1out.cols ∧
    ∀ r ∈ dfW1out.rows, getCell r "valeur_reelle" ≠ Value.missing :=
  ⟨by decide, by decide, C1_thm dfW1 dfW1out (by decide) (by decide)⟩

theorem quarterIdx_bounds (t : Value) : 0 ≤ quarterIdx t ∧ quarterIdx t ≤ 4 := by
  unfold quarterIdx
  split <;> norm_num

/-- C2: `sort_key = annee*10 + quarter_index` (with `quarter_index ∈
{T1↦1, T2↦2, T3↦3, T4↦4}`, `0` for any other or missing quarter) strictly
orders distinct `(annee, trimestre)` pairs chronologically — a row of an
earlier (integer) year has a strictly smaller sort key than any row of a
later year, and within a fixed year `T1 < T2 < T3 < T4` with an unknown
quarter (index `0`) sorting before all known quarters. -/
theorem C2_thm (a1 a2 : ℤ) (t1 t2 u : Value) (hu : quarterIdx u = 0) :
    (a1 < a2 → sortKeyOf (a1 : ℚ) t1 < sortKeyOf (a2 : ℚ) t2)
    ∧ sortKeyOf (a1 : ℚ) u < sortKeyOf (a1 : ℚ) (Value.str "T1")
    ∧ sortKeyOf (a1 : ℚ) (Value.str "T1") < sortKeyOf (a1 : ℚ) (Value.str "T2")
    ∧ sortKeyOf (a1 : ℚ) (Value.str "T2") < sortKeyOf (a1 : ℚ) (Value.str "T3")
    ∧ sortKeyOf (a1 : ℚ) (Value.str "T3") < sortKeyOf (a1 : ℚ) (Value.str "T4") := by
  have q1 : quarterIdx (Value.str "T1") = 1 := by decide
  have q2 : quarterIdx (Value.str "T2") = 2 := by decide
  have q3 : quarterIdx (Value.str "T3") = 3 := by decide
  have q4 : quarterIdx (Value.str "T4") = 4 := by decide
  simp only [sortKeyOf_eq, hu, q1, q2, q3, q4]
  refine ⟨fun h => ?_, by linarith, by linarith, by linarith, by linarith⟩
  obtain ⟨l1, r1⟩ := quarterIdx_bounds t1
  obtain ⟨l2, r2⟩ := quarterIdx_bounds t2
  have h' : a1 + 1 ≤ a2 := Int.add_one_le_iff.mpr h
  have hq : (a1 : ℚ) + 1 ≤ (a2 : ℚ) := by exact_mod_cast h'
  linarith

/-- C2 witness: `C2_thm` applied at years 2022 and 2023, quarter `T4`
against a missing quarter. -/
theorem C2_wit :
    sortKeyOf ((2022 : ℤ) : ℚ) (Value.str "T4") < sortKeyOf ((2023 : ℤ) : ℚ) Value.missing
    ∧ sortKeyOf ((2023 : ℤ) : ℚ) Value.missing < sortKeyOf ((2023 : ℤ) : ℚ) (Value.str "T1") :=
  ⟨(C2_thm 2022 2023 (Value.str "T4") Value.missing Value.missing (by decide)).1 (by decide),
   (C2_thm 2023 2023 Value.missing Value.missing Value.missing (by decide)).2.1⟩

/-- C3, counterexample to the claim as stated: `nettoyer_donnees` mutates
its argument in place (`df.columns = …`, `rename(inplace=True)`,
`df[col] = …`, `dropna(inplace=True)`), so after the call the caller's
table is no longer equal to its value before the call. -/
theorem C3_cex : (nettoyerCall dfC3).1 ≠ dfC3 := by decide

/-- C3, amended: `nettoyer_donnees` is a function of its input table only,
but it normalizes the caller's table in place: on a normal return the
argument object holds exactly the returned normalized table (rather than
its pre-call value). -/
theorem C3_thm (df out : DataFrame) (h : nettoyer_donnees df = Except.ok out) :
    (nettoyerCall df).1 = out ∧ (nettoyerCall df).2 = Except.ok out := by
  unfold nettoyerCall
  rw [h]
  exact ⟨rfl, rfl⟩

/-- C3 witness: `C3_thm` applied at the concrete table `dfC3`. -/
theorem C3_wit :
    (nettoyerCall dfC3).1 = DataFrame.mk ["valeur_reelle"] []
    ∧ (nettoyerCall dfC3).2 = Except.ok (DataFrame.mk ["valeur_reelle"] []) :=
  C3_thm dfC3 (DataFrame.mk ["valeur_reelle"] []) (by decide)

/-- C4: on the `valeur_reelle` / `valeur_objectif` columns, every text cell
is coerced by replacing commas with periods and parsing as a float, an
unparseable value becoming missing rather than an error; `"98,5"` coerces
to `98.5` and `"abc"` to missing; and `stepCoerce` applies exactly this
column coercion to each of the two columns when present. -/
theorem C4_thm (cells : List Value) (i : ℕ) (s : String) (df : DataFrame)
    (h : cells[i]? = some (Value.str s)) :
    ((coerceCol cells)[i]? = some (match parseFloat (replaceComma s) with
        | some q => Value.num q
        | none => Value.missing))
    ∧ coerceCol [Value.str "98,5"] = [Value.num (mkRat 197 2)]
    ∧ coerceCol [Value.str "abc"] = [Value.missing]
    ∧ ("valeur_reelle" ∈ df.cols →
        getColumn (stepCoerce df) "valeur_reelle" = coerceCol (getColumn df "valeur_reelle"))
    ∧ ("valeur_objectif" ∈ df.cols →
        getColumn (stepCoerce df) "valeur_objectif" = coerceCol (getColumn df "valeur_objectif")) := by
  refine ⟨?_, by decide, by decide, ?_, ?_⟩
  · have hmem : Value.str s ∈ cells := List.getElem?_mem h
    have hany : cells.any isStrB = true :=
      List.any_eq_true.mpr ⟨Value.str s, hmem, rfl⟩
    unfold coerceCol
    rw [if_pos hany, List.getElem?_map, h]
    rfl
  · intro hm
    unfold stepCoerce
    simp only [if_pos hm]
    have hlen : (coerceCol (getColumn df "valeur_reelle")).length = df.rows.length := by
      rw [length_coerceCol, length_getColumn]
    by_cases ho : "valeur_objectif" ∈ (setColumn df "valeur_reelle"
        (coerceCol (getColumn df "valeur_reelle"))).cols
    · rw [if_pos ho,
        getColumn_setColumn_ne _ _ _ _ ?_ (by decide),
        getColumn_setColumn_self _ _ _ hlen]
      rw [length_coerceCol, length_getColumn, length_rows_setColumn _ _ _ hlen]
    · rw [if_neg ho, getColumn_setColumn_self _ _ _ hlen]
  · intro ho
    unfold stepCoerce
    by_cases hm : "valeur_reelle" ∈ df.cols
    · simp only [if_pos hm]
      have hlen : (coerceCol (getColumn df "valeur_reelle")).length = df.rows.length := by
        rw [length_coerceCol, length_getColumn]
      have ho' : "valeur_objectif" ∈ (setColumn df "valeur_reelle"
          (coerceCol (getColumn df "valeur_reelle"))).cols :=
        (mem_cols_setColumn _ _ _ _).mpr (Or.inl ho)
      rw [if_pos ho',
        getColumn_setColumn_self _ _ _ ?_,
        getColumn_setColumn_ne _ _ _ _ hlen (by decide)]
      rw [length_coerceCol, getColumn_setColumn_ne _ _ _ _ hlen (by decide),
        length_getColumn, length_rows_setColumn _ _ _ hlen]
    · simp only [if_neg hm]
      rw [if_pos ho, getColumn_setColumn_self _ _ _ (by rw [length_coerceCol, length_getColumn])]

theorem filterAnnee_eq (sel : List Value) (df : DataFrame) :
    filterAnnee sel df =
      ⟨df.cols, df.rows.filter (fun r =>
        if "annee" ∈ df.cols ∧ sel ≠ [] then decide (getCell r "annee" ∈ sel) else true)⟩ := by
  unfold filterAnnee
  split
  · next h => simp only [if_pos h]
  · next h => simp only [if_neg h, List.filter_true]

theorem filterMode_eq (sel : String) (df : DataFrame) :
    filterMode sel df =
      ⟨df.cols, df.rows.filter (fun r =>
        if "mode" ∈ df.cols ∧ sel ≠ "Tous" then decide (getCell r "mode" = Value.str sel)
        else true)⟩ := by
  unfold filterMode
  split
  · next h => simp only [if_pos h]
  · next h => simp only [if_neg h, List.filter_true]

theorem filterTheme_eq (sel : String) (df : DataFrame) :
    filterTheme sel df =
      ⟨df.cols, df.rows.filter (fun r =>
        if "thematique" ∈ df.cols ∧ sel ≠ "Toutes" then decide (getCell r "thematique" = Value.str sel)
        else true)⟩ := by
  unfold filterTheme
  split
  · next h => simp only [if_pos h]
  · next h => simp only [if_neg h, List.filter_true]

theorem applyFilters_eq (c : Criteria) (df : DataFrame) :
    applyFilters c df =
      ⟨df.cols,
        ((df.rows.filter (fun r =>
            if "annee" ∈ df.cols ∧ c.annees ≠ [] then decide (getCell r "annee" ∈ c.annees)
            else true)).filter (fun r =>
            if "mode" ∈ df.cols ∧ c.mode ≠ "Tous" then decide (getCell r "mode" = Value.str c.mode)
            else true)).filter (fun r =>
            if "thematique" ∈ df.cols ∧ c.theme ≠ "Toutes" then
              decide (getCell r "thematique" = Value.str c.theme)
            else true)⟩ := by
  unfold applyFilters
  rw [filterAnnee_eq, filterMode_eq, filterTheme_eq]

theorem filter3_idem {α : Type} (p q t : α → Bool) (l : List α) :
    ((((((l.filter p).filter q).filter t).filter p).filter q).filter t) =
      ((l.filter p).filter q).filter t := by
  simp only [List.filter_filter]
  exact List.filter_congr (fun x _ => by cases p x <;> cases q x <;> cases t x <;> rfl)

/-- C8: the sidebar filters are idempotent — applying the same criteria
(selected years, selected mode, selected thématique) to an
already-filtered table yields the identical table. -/
theorem C8_thm (c : Criteria) (df : DataFrame) :
    applyFilters c (applyFilters c df) = applyFilters c df := by
  rw [applyFilters_eq c df, applyFilters_eq]
  exact congrArg (DataFrame.mk df.cols) (filter3_idem _ _ _ df.rows)

/-- C9: with the `mode` (resp. `thematique`) column present, selecting a
non-sentinel value `m` (resp. `t`) keeps exactly the rows whose cell is the
text `m` (resp. `t`); rows with a missing cell are excluded by any specific
selection and retained under the `'Tous'` / `'Toutes'` sentinel. -/
theorem C9_thm (df : DataFrame) (m t : String) (r : Row)
    (hm : "mode" ∈ df.cols) (ht : "thematique" ∈ df.cols) :
    (m ≠ "Tous" →
      (r ∈ (applyFilters ⟨[], m, "Toutes"⟩ df).rows ↔
        r ∈ df.rows ∧ getCell r "mode" = Value.str m))
    ∧ (r ∈ (applyFilters ⟨[], "Tous", "Toutes"⟩ df).rows ↔ r ∈ df.rows)
    ∧ (t ≠ "Toutes" →
      (r ∈ (applyFilters ⟨[], "Tous", t⟩ df).rows ↔
        r ∈ df.rows ∧ getCell r "thematique" = Value.str t))
    ∧ (getCell r "mode" = Value.missing → m ≠ "Tous" →
        r ∉ (applyFilters ⟨[], m, "Toutes"⟩ df).rows)
    ∧ (getCell r "thematique" = Value.missing → t ≠ "Toutes" →
        r ∉ (applyFilters ⟨[], "Tous", t⟩ df).rows) := by
  have hmode : ∀ m' : String, m' ≠ "Tous" →
      (r ∈ (applyFilters ⟨[], m', "Toutes"⟩ df).rows ↔
        r ∈ df.rows ∧ getCell r "mode" = Value.str m') := by
    intro m' hmn
    simp [applyFilters_eq, hm, hmn]
  have hth : ∀ t' : String, t' ≠ "Toutes" →
      (r ∈ (applyFilters ⟨[], "Tous", t'⟩ df).rows ↔
        r ∈ df.rows ∧ getCell r "thematique" = Value.str t') := by
    intro t' htn
    simp [applyFilters_eq, ht, htn]
  refine ⟨hmode m, ?_, hth t, fun hmiss hmn hmem => ?_, fun hmiss htn hmem => ?_⟩
  · simp [applyFilters_eq]
  · obtain ⟨-, heq⟩ := (hmode m hmn).mp hmem
    rw [hmiss] at heq
    cases heq
  · obtain ⟨-, heq⟩ := (hth t htn).mp hmem
    rw [hmiss] at heq
    cases heq

/-- C9 witness: `C9_thm` applied at the concrete table `dfW9`, selections
`"Métro"` and `"Régularité"`, and the first row of `dfW9`. -/
theorem C9_wit :
    ([("mode", Value.str "Métro"), ("thematique", Value.str "Régularité"),
        ("valeur_reelle", Value.num 95)] ∈
      (applyFilters ⟨[], "Métro", "Toutes"⟩ dfW9).rows ↔
      [("mode", Value.str "Métro"), ("thematique", Value.str "Régularité"),
        ("valeur_reelle", Value.num 95)] ∈ dfW9.rows ∧
      getCell [("mode", Value.str "Métro"), ("thematique", Value.str "Régularité"),
        ("valeur_reelle", Value.num 95)] "mode" = Value.str "Métro") :=
  (C9_thm dfW9 "Métro" "Régularité"
    [("mode", Value.str "Métro"), ("thematique", Value.str "Régularité"),
      ("valeur_reelle", Value.num 95)] (by decide) (by decide)).1 (by decide)

/-- C6, counterexample to the claim as stated, in two parts.  First, when
the `thematique` column is absent the category-breakdown view is skipped
but no informational notice is issued (the source has no
`else: st.info(...)` for Graphique 3).  Second, the views do not degrade
independently: normalizing `dfC6b` yields a table with `periode_label` and
`sort_key` but no `valeur_reelle`, on which Graphique 1's column selection
raises an uncaught `KeyError` that halts the run — no view is "skipped
with a notice" and the other views do not proceed at all. -/
theorem C6_cex :
    (renderDashboard dfC6).toOption.map Dashboard.theme = some none
    ∧ (renderDashboard dfC6).toOption.map Dashboard.notices = some []
    ∧ (nettoyer_donnees dfC6b).toOption.map renderDashboard = some (Except.error ()) := by
  decide

/-- C6, amended: if the temporal section does not abort, each view whose
required canonical columns are absent is skipped entirely (no partial
output) — the temporal trend and ranked entity views with an informational
notice, the category breakdown silently — and the other views still run;
but the temporal section's guard checks only `periode_label` and
`sort_key`, so on a table having those but no `valeur_reelle` its column
selection raises an uncaught `KeyError` that halts the run before the
ranked-entity notice and the category view. -/
theorem C6_thm (df : DataFrame) :
    ((¬ ("periode_label" ∈ df.cols ∧ "sort_key" ∈ df.cols)) →
      ∃ d, renderDashboard df = Except.ok d ∧ d.temporal = none ∧
        "Données temporelles insuffisantes." ∈ d.notices)
    ∧ ("periode_label" ∈ df.cols ∧ "sort_key" ∈ df.cols → "valeur_reelle" ∉ df.cols →
        renderDashboard df = Except.error ())
    ∧ (∀ d, renderDashboard df = Except.ok d →
        d.ranked = viewRanked df
        ∧ d.theme = viewTheme df
        ∧ viewTemporal df = Except.ok d.temporal
        ∧ ((¬ ("ligne" ∈ df.cols ∧ "valeur_reelle" ∈ df.cols)) →
            d.ranked = none ∧ "Information sur les lignes manquante." ∈ d.notices)
        ∧ ((¬ ("thematique" ∈ df.cols ∧ "valeur_reelle" ∈ df.cols)) → d.theme = none)) := by
  refine ⟨fun h => ?_, fun hps hvr => ?_, fun d hd => ?_⟩
  · have ht : viewTemporal df = Except.ok none := by
      unfold viewTemporal
      rw [if_neg h]
    have hr : renderDashboard df = Except.ok
        { temporal := none
          ranked := viewRanked df
          theme := viewTheme df
          notices := ["Données temporelles insuffisantes."] ++
            (if (viewRanked df).isNone then ["Information sur les lignes manquante."] else []) } := by
      unfold renderDashboard
      rw [ht]
      rfl
    exact ⟨_, hr, rfl, by simp⟩
  · have hall : (colsToAgg df).all (fun c => decide (c ∈ df.cols)) = false := by
      unfold colsToAgg
      by_cases ho : "valeur_objectif" ∈ df.cols
      · simp [ho, hvr]
      · simp [ho, hvr]
    have ht : viewTemporal df = Except.error () := by
      unfold viewTemporal
      rw [if_pos hps, hall]
      simp
    unfold renderDashboard
    rw [ht]
  · cases hvt : viewTemporal df with
    | error e =>
        unfold renderDashboard at hd
        rw [hvt] at hd
        cases hd
    | ok t =>
        unfold renderDashboard at hd
        rw [hvt] at hd
        injection hd with hd
        subst hd
        refine ⟨rfl, rfl, rfl, fun h => ?_, fun h => ?_⟩
        · have hr : viewRanked df = none := by unfold viewRanked; rw [if_neg h]
          exact ⟨hr, by simp [hr]⟩
        · show viewTheme df = none
          unfold viewTheme
          rw [if_neg h]

/-- C6 witness: `C6_thm` applied at the concrete table `dfW6` (no
`periode_label` column: the temporal view is skipped with its notice and
the run completes). -/
theorem C6_wit :
    ∃ d, renderDashboard dfW6 = Except.ok d ∧ d.temporal = none ∧
      "Données temporelles insuffisantes." ∈ d.notices :=
  (C6_thm dfW6).1 (by decide)

theorem mem_zipWith_periode_ne_missing (as ts : List String) (v : Value)
    (h : v ∈ List.zipWith (fun a t => Value.str (a ++ " - " ++ t)) as ts) :
    v ≠ Value.missing := by
  induction as generalizing ts with
  | nil => cases h
  | cons a as ih =>
      cases ts with
      | nil => cases h
      | cons t ts =>
          rcases List.mem_cons.mp h with h | h
          · subst h; simp
          · exact ih ts h

theorem stepDrop_mem_iff (d : DataFrame) (r : Row) (hc : "valeur_reelle" ∈ d.cols) :
    r ∈ (stepDrop d).rows ↔ r ∈ d.rows ∧ getCell r "valeur_reelle" ≠ Value.missing := by
  unfold stepDrop
  simp [if_pos hc, List.mem_filter]

/-- C7, counterexample to the claim as stated: with both columns present,
the row with a missing year is kept (its measurement is present) and its
`periode_label` is the string `"nan - T2"` — not missing, because
`astype(str)` renders `NaN` as `"nan"`; its `sort_key` is missing.  The
valid row's label is `"2023.0 - T1"` (float64 rendering), not
`"2023 - T1"`. -/
theorem C7_cex :
    (nettoyer_donnees dfC7).toOption.map (fun d => d.rows.map (fun r => getCell r "periode_label"))
      = some [Value.str "2023.0 - T1", Value.str "nan - T2"]
    ∧ (nettoyer_donnees dfC7).toOption.map (fun d => d.rows.map (fun r => getCell r "sort_key"))
      = some [Value.num (mkRat 20231 1), Value.missing] := by
  decide

/-- C7, amended: when both the `annee` and `trimestre` columns are present
(and the year column holds no text, which would raise a `TypeError`),
every row gets `periode_label = astype(str)(annee) ++ " - " ++
astype(str)(trimestre)` — a string for every row, never missing, missing
values rendering as `"nan"`; `sort_key` is the derived numeric key,
missing exactly for rows whose `annee` is not numeric; and a row survives
the final drop exactly when its `valeur_reelle` is non-missing. -/
theorem C7_thm (df : DataFrame) (h1 : "annee" ∈ df.cols) (h2 : "trimestre" ∈ df.cols)
    (hok : (getColumn df "annee").any isStrB = false) :
    ∀ out, stepDerive df = Except.ok out →
      (getColumn out "periode_label" =
        List.zipWith (fun a t => Value.str (a ++ " - " ++ t))
          (astypeStrCol (getColumn df "annee")) (astypeStrCol (getColumn df "trimestre")))
      ∧ (∀ v ∈ getColumn out "periode_label", v ≠ Value.missing)
      ∧ (getColumn out "sort_key" =
          List.zipWith sortKeyCell (getColumn df "annee") (getColumn df "trimestre"))
      ∧ (∀ d : DataFrame, ∀ r : Row, "valeur_reelle" ∈ d.cols →
          (r ∈ (stepDrop d).rows ↔ r ∈ d.rows ∧ getCell r "valeur_reelle" ≠ Value.missing)) := by
  intro out hout
  unfold stepDerive at hout
  rw [if_pos ⟨h1, h2⟩, hok] at hout
  simp only [Bool.false_eq_true, if_neg] at hout
  injection hout with hout
  subst hout
  have hplen : (List.zipWith (fun a t => Value.str (a ++ " - " ++ t))
      (astypeStrCol (getColumn df "annee")) (astypeStrCol (getColumn df "trimestre"))).length
      = df.rows.length := by
    rw [List.length_zipWith, length_astypeStrCol, length_astypeStrCol,
      length_getColumn, length_getColumn, Nat.min_self]
  have hrows1 : (setColumn df "periode_label"
      (List.zipWith (fun a t => Value.str (a ++ " - " ++ t))
        (astypeStrCol (getColumn df "annee"))
        (astypeStrCol (getColumn df "trimestre")))).rows.length = df.rows.length :=
    length_rows_setColumn _ _ _ hplen
  have hannee1 : getColumn (setColumn df "periode_label"
      (List.zipWith (fun a t => Value.str (a ++ " - " ++ t))
        (astypeStrCol (getColumn df "annee"))
        (astypeStrCol (getColumn df "trimestre")))) "annee" = getColumn df "annee" :=
    getColumn_setColumn_ne _ _ _ _ hplen (by decide)
  have htrim1 : getColumn (setColumn df "periode_label"
      (List.zipWith (fun a t => Value.str (a ++ " - " ++ t))
        (astypeStrCol (getColumn df "annee"))
        (astypeStrCol (getColumn df "trimestre")))) "trimestre" = getColumn df "trimestre" :=
    getColumn_setColumn_ne _ _ _ _ hplen (by decide)
  have hslen : (List.zipWith sortKeyCell (getColumn df "annee") (getColumn df "trimestre")).length
      = df.rows.length := by
    rw [List.length_zipWith, length_getColumn, length_getColumn, Nat.min_self]
  refine ⟨?_, ?_, ?_, fun d r hc => stepDrop_mem_iff d r hc⟩
  · rw [hannee1, htrim1, getColumn_setColumn_ne _ _ _ _ (by rw [hslen, hrows1]) (by decide),
      getColumn_setColumn_self _ _ _ hplen]
  · rw [hannee1, htrim1, getColumn_setColumn_ne _ _ _ _ (by rw [hslen, hrows1]) (by decide),
      getColumn_setColumn_self _ _ _ hplen]
    exact fun v hv => mem_zipWith_periode_ne_missing _ _ v hv
  · rw [hannee1, htrim1, getColumn_setColumn_self _ _ _ (by rw [hslen, hrows1])]

/-- C7 witness: `C7_thm` applied at the concrete table `dfW7` and its
derived output. -/
theorem C7_wit :
    (∃ out, stepDerive dfW7 = Except.ok out) ∧
    ∀ out, stepDerive dfW7 = Except.ok out →
      getColumn out "periode_label" =
        List.zipWith (fun a t => Value.str (a ++ " - " ++ t))
          (astypeStrCol (getColumn dfW7 "annee")) (astypeStrCol (getColumn dfW7 "trimestre")) :=
  ⟨⟨setColumn (setColumn dfW7 "periode_label"
      [Value.str "2024.0 - T3", Value.str "nan - T1"]) "sort_key"
      [Value.num (mkRat 20243 1), Value.missing], by decide⟩,
   fun out hout => (C7_thm dfW7 (by decide) (by decide) (by decide) out hout).1⟩

theorem mem_dedupFirst {α : Type} [DecidableEq α] (x : α) (l : List α) :
    x ∈ dedupFirst l ↔ x ∈ l := by
  have key : ∀ (l acc : List α),
      x ∈ l.foldl (fun acc v => if v ∈ acc then acc else acc ++ [v]) acc ↔
        x ∈ acc ∨ x ∈ l := by
    intro l
    induction l with
    | nil => intro acc; simp
    | cons a l ih =>
        intro acc
        rw [List.foldl_cons, ih]
        by_cases h : a ∈ acc
        · rw [if_pos h]
          simp only [List.mem_cons]
          constructor
          · rintro (hx | hx)
            · exact Or.inl hx
            · exact Or.inr (Or.inr hx)
          · rintro (hx | hx | hx)
            · exact Or.inl hx
            · rw [hx]; exact Or.inl h
            · exact Or.inr hx
        · rw [if_neg h]
          simp only [List.mem_append, List.mem_singleton, List.mem_cons]
          tauto
  rw [dedupFirst, key]
  simp

theorem mem_distinctKeys (df : DataFrame) (key : String) (k : Value) :
    k ∈ distinctKeys df key ↔
      (k ≠ Value.missing ∧ ∃ r ∈ df.rows, getCell r key = k) := by
  unfold distinctKeys
  rw [mem_dedupFirst]
  simp only [List.mem_filter, List.mem_map, decide_eq_true_eq]
  constructor
  · rintro ⟨⟨r, hr, rfl⟩, hne⟩
    exact ⟨hne, r, hr, rfl⟩
  · rintro ⟨hne, r, hr, rfl⟩
    exact ⟨⟨r, hr, rfl⟩, hne⟩

theorem mem_groupbyMean (df : DataFrame) (key val : String) (p : Value × Option ℚ)
    (h : p ∈ groupbyMean df key val) :
    p.1 ∈ distinctKeys df key ∧ p.2 = groupMeanOpt df key val p.1 := by
  unfold groupbyMean at h
  obtain ⟨k, hk, hp⟩ := List.mem_map.mp h
  cases hp
  exact ⟨hk, rfl⟩

theorem groupMeanOpt_ne_none (df : DataFrame) (key val : String) (k : Value)
    (hn : ∀ r ∈ df.rows, isNumB (getCell r val) = true)
    (hk : k ∈ distinctKeys df key) :
    groupMeanOpt df key val k ≠ none := by
  obtain ⟨hne, r, hr, hrk⟩ := (mem_distinctKeys df key k).mp hk
  have hrg : r ∈ groupRows df key k := List.mem_filter.mpr ⟨hr, by simp [hrk]⟩
  have hcell := hn r hr
  obtain ⟨q, hq⟩ : ∃ q, getCell r val = Value.num q := by
    cases hc : getCell r val <;> simp [isNumB, hc] at hcell ⊢
  have hmem : q ∈ ((groupRows df key k).map (fun r => getCell r val)).filterMap numOf :=
    List.mem_filterMap.mpr ⟨Value.num q, List.mem_map.mpr ⟨r, hrg, hq⟩, rfl⟩
  have hne2 : ¬ (((groupRows df key k).map (fun r => getCell r val)).filterMap numOf).isEmpty
      = true := by
    rw [List.isEmpty_iff]
    intro hnil
    rw [hnil] at hmem
    cases hmem
  unfold groupMeanOpt meanOpt
  rw [if_neg hne2]
  simp

/-- C5: on a normalized table (all `valeur_reelle` cells numeric) whose
ranked view is available, the view has at most 15 rows, is sorted
non-decreasing in the mean (worst first), each row carries exactly the
group mean of `valeur_reelle` over the rows with that `ligne` (a real
mean, not `NaN`), and when fewer than 15 distinct entities exist every
entity appears with its group mean. -/
theorem C5_thm (df : DataFrame) (v : List (Value × Option ℚ))
    (hn : ∀ r ∈ df.rows, isNumB (getCell r "valeur_reelle") = true)
    (hv : viewRanked df = some v) :
    v.length ≤ 15
    ∧ List.Pairwise leMeanRel v
    ∧ (∀ p ∈ v, p.2 = groupMeanOpt df "ligne" "valeur_reelle" p.1 ∧ p.2 ≠ none)
    ∧ ((distinctKeys df "ligne").length < 15 →
        ∀ k ∈ distinctKeys df "ligne", (k, groupMeanOpt df "ligne" "valeur_reelle" k) ∈ v) := by
  unfold viewRanked at hv
  split at hv
  case isFalse h => cases hv
  case isTrue h =>
  injection hv with hv
  subst hv
  refine ⟨?_, ?_, ?_, ?_⟩
  · rw [List.length_take]
    exact min_le_left _ _
  · exact List.Pairwise.sublist (List.take_sublist _ _)
      (List.sorted_insertionSort leMeanRel _)
  · intro p hp
    have hp2 : p ∈ groupbyMean df "ligne" "valeur_reelle" :=
      (List.perm_insertionSort leMeanRel _).mem_iff.mp (List.take_subset _ _ hp)
    obtain ⟨hk, hm⟩ := mem_groupbyMean df _ _ p hp2
    refine ⟨hm, ?_⟩
    rw [hm]
    exact groupMeanOpt_ne_none df _ _ p.1 hn hk
  · intro hlt k hk
    have hlen : (List.insertionSort leMeanRel (groupbyMean df "ligne" "valeur_reelle")).length
        = (distinctKeys df "ligne").length := by
      rw [(List.perm_insertionSort leMeanRel _).length_eq]
      unfold groupbyMean
      rw [List.length_map]
    rw [List.take_of_length_le (by rw [hlen]; omega)]
    exact (List.perm_insertionSort leMeanRel _).mem_iff.mpr
      (List.mem_map.mpr ⟨k, hk, rfl⟩)

/-- C5 witness: `C5_thm` applied at the concrete table `dfW5`. -/
theorem C5_wit :
    viewRanked dfW5 =
      some [(Value.str "B", some (mkRat 80 1)), (Value.str "A", some (mkRat 95 1))]
    ∧ ([(Value.str "B", some (mkRat 80 1)), (Value.str "A", some (mkRat 95 1))] :
        List (Value × Option ℚ)).length ≤ 15
    ∧ List.Pairwise leMeanRel
        [(Value.str "B", some (mkRat 80 1)), (Value.str "A", some (mkRat 95 1))] :=
  ⟨by decide,
   (C5_thm dfW5 [(Value.str "B", some (mkRat 80 1)), (Value.str "A", some (mkRat 95 1))]
     (by decide) (by decide)).1,
   (C5_thm dfW5 [(Value.str "B", some (mkRat 80 1)), (Value.str "A", some (mkRat 95 1))]
     (by decide) (by decide)).2.1⟩

theorem filter_filter_of_imp {α : Type} (p q : α → Bool) (l : List α)
    (h : ∀ a, p a = true → q a = true) :
    (l.filter q).filter p = l.filter p := by
  rw [List.filter_filter]
  refine List.filter_congr fun x _ => ?_
  cases hp : p x
  · simp
  · simp [h x hp]

theorem distinctKeys_dropMissingKey (df : DataFrame) (key : String) :
    distinctKeys (dropMissingKey df key) key = distinctKeys df key := by
  unfold distinctKeys dropMissingKey
  have hh : (df.rows.filter (fun r => decide (getCell r key ≠ Value.missing))).map
        (fun r => getCell r key)
      = (df.rows.map (fun r => getCell r key)).filter
        (fun v => decide (v ≠ Value.missing)) := by
    rw [List.filter_map]
    rfl
  rw [hh, List.filter_filter]
  congr 1
  exact List.filter_congr fun x _ => Bool.and_self _

theorem groupRows_dropMissingKey (df : DataFrame) (key : String) (k : Value)
    (hk : k ≠ Value.missing) :
    groupRows (dropMissingKey df key) key k = groupRows df key k := by
  unfold groupRows dropMissingKey
  exact filter_filter_of_imp _ _ _ (fun r hr => by
    simp only [decide_eq_true_eq] at hr ⊢
    rw [hr]
    exact hk)

theorem groupbyMean_dropMissingKey (df : DataFrame) (key val : String) :
    groupbyMean (dropMissingKey df key) key val = groupbyMean df key val := by
  unfold groupbyMean
  rw [distinctKeys_dropMissingKey]
  refine List.map_congr_left fun k hk => ?_
  have hkne : k ≠ Value.missing := ((mem_distinctKeys df key k).mp hk).1
  unfold groupMeanOpt
  rw [groupRows_dropMissingKey df key k hkne]

/-- C10: rows whose grouping key (`ligne`, resp. `thematique`) is missing
contribute to no group of the ranked entity (resp. category breakdown)
view — deleting them changes neither view, so they are excluded from every
group's mean — and no group keyed by a missing value ever appears in
either view's output. -/
theorem C10_thm (df : DataFrame) :
    viewRanked (dropMissingKey df "ligne") = viewRanked df
    ∧ viewTheme (dropMissingKey df "thematique") = viewTheme df
    ∧ (∀ l, viewRanked df = some l → ∀ p ∈ l, p.1 ≠ Value.missing)
    ∧ (∀ l, viewTheme df = some l → ∀ p ∈ l, p.1 ≠ Value.missing) := by
  refine ⟨?_, ?_, ?_, ?_⟩
  · unfold viewRanked
    have hc : (dropMissingKey df "ligne").cols = df.cols := rfl
    rw [hc, groupbyMean_dropMissingKey]
  · unfold viewTheme
    have hc : (dropMissingKey df "thematique").cols = df.cols := rfl
    rw [hc, groupbyMean_dropMissingKey]
  · intro l hl p hp
    unfold viewRanked at hl
    split at hl
    case isTrue hcols =>
        injection hl with hl
        subst hl
        have hp2 : p ∈ groupbyMean df "ligne" "valeur_reelle" :=
          (List.perm_insertionSort leMeanRel _).mem_iff.mp (List.take_subset _ _ hp)
        exact ((mem_distinctKeys df _ p.1).mp (mem_groupbyMean df _ _ p hp2).1).1
    case isFalse hcols => cases hl
  · intro l hl p hp
    unfold viewTheme at hl
    split at hl
    case isTrue hcols =>
        injection hl with hl
        subst hl
        have hp2 : p ∈ groupbyMean df "thematique" "valeur_reelle" :=
          (List.perm_insertionSort leMeanRel _).mem_iff.mp hp
        exact ((mem_distinctKeys df _ p.1).mp (mem_groupbyMean df _ _ p hp2).1).1
    case isFalse hcols => cases hl

/-- C10 witness: `C10_thm` applied at the concrete table `dfW10` (the
missing-key row is ignored: the group mean stays 95, not 72.5). -/
theorem C10_wit :
    viewRanked dfW10 = some [(Value.str "A", some (mkRat 95 1))]
    ∧ ∀ p ∈ [((Value.str "A" : Value), (some (mkRat 95 1) : Option ℚ))],
        p.1 ≠ Value.missing :=
  ⟨by decide,
   fun p hp => (C10_thm dfW10).2.2.1 [(Value.str "A", some (mkRat 95 1))] (by decide) p hp⟩

/-- C4 witness: `C4_thm` applied at the concrete column `[str "98,5"]`,
index 0, and the concrete table `dfW4`. -/
theorem C4_wit :
    ((coerceCol [Value.str "98,5"])[0]? = some (match parseFloat (replaceComma "98,5") with
        | some q => Value.num q
        | none => Value.missing))
    ∧ getColumn (stepCoerce dfW4) "valeur_reelle" = coerceCol (getColumn dfW4 "valeur_reelle")
    ∧ getColumn (stepCoerce dfW4) "valeur_objectif" = coerceCol (getColumn dfW4 "valeur_objectif") :=
  ⟨(C4_thm [Value.str "98,5"] 0 "98,5" dfW4 (by decide)).1,
   (C4_thm [Value.str "98,5"] 0 "98,5" dfW4 (by decide)).2.2.2.1 (by decide),
   (C4_thm [Value.str "98,5"] 0 "98,5" dfW4 (by decide)).2.2.2.2 (by decide)⟩

end Dash
